import Mathlib

/-!
Verification of the request-signing and session-authentication proxy layer of
the ai-pronunciation-coach repository (Cloudflare Pages function
`src/functions/api/[[path]].ts` and the token-caching client helper).

The TypeScript source is shallowly embedded: each handler becomes a Lean
function over explicit state; the WebSocket lifecycle of `handleEvaluation`
becomes a step function over an event list; environment primitives that the
source merely calls (JSON.parse, crypto.subtle digests and HMACs) are passed
in as function parameters, while the source's own utilities (`toBase64`,
`btoa`) are implemented concretely.
-/

namespace PronunciationCoach

/-! ## JS truthiness helpers

The source relies on JavaScript truthiness for optional strings
(`body`, `response.payload?.result?.text`, `response.header.message`,
environment variables): `undefined` and the empty string are falsy. -/

/-- JS truthiness of an optional string: `undefined` and `""` are falsy. -/
def strTruthy : Option String → Bool
  | none => false
  | some s => !s.isEmpty

/-- `x || fallback` on an optional string, as the source writes
`response.header.message || '未知错误'`. -/
def strOrElse (x : Option String) (fallback : String) : String :=
  match x with
  | none => fallback
  | some s => if s.isEmpty then fallback else s

/-! ## WebSocket evaluation session (`handleEvaluation`, lines 103–167)

The promise wrapping the WebSocket lifecycle is modelled as a state machine.
Inbound frames carry raw string data; the environment's `JSON.parse` of the
envelope and the `atob` + `JSON.parse` of `payload.result.text` are abstract
parameters (`parse`, `decode`): `none` models the call throwing (caught by
the handler's `try`/`catch`), `some` a successful parse.

`V` is the type of the value found under the decoded result's `result`
field; an `Option V` models that a JS property access may yield
`undefined` without throwing. -/

/-- The parsed envelope header `{code, message}` of an inbound frame. -/
structure XfHeader where
  code : Int
  message : Option String
  deriving Repr, DecidableEq

/-- A parsed inbound frame: `response.header` (absent header makes the
`response.header.code` access throw) and `response.payload?.result?.text`. -/
structure XfFrame where
  header : Option XfHeader
  resultText : Option String
  deriving Repr, DecidableEq

/-- The value obtained by `JSON.parse(atob(response.payload.result.text))`:
only its `result` field is consumed, and that field may be absent
(`undefined`). -/
structure DecodedResult (V : Type) where
  result : Option V
  deriving Repr, DecidableEq

/-- How the session promise was settled. -/
inductive SettleOutcome (V : Type) where
  | resolved (v : Option V)
  | rejected (message : String) (code : String)
  deriving Repr, DecidableEq

/-- The mutable state of one evaluation session: the `settled` guard, the
settlement value, whether the 15-second timer is still armed, the
`ws.close(code, reason)` calls issued by the handler code, and whether the
transport has delivered a `close` event. -/
structure WsSession (V : Type) where
  settled : Bool
  outcome : Option (SettleOutcome V)
  timerArmed : Bool
  closeCalls : List (Nat × String)
  closeEventSeen : Bool
  deriving Repr, DecidableEq

/-- Session state right after `new Promise` runs the executor: not settled,
timeout timer armed, no close issued. -/
def initSession (V : Type) : WsSession V :=
  { settled := false, outcome := none, timerArmed := true
    closeCalls := [], closeEventSeen := false }

/-- The `settle` helper (lines 105–111): first call records the outcome and
runs `cleanup()` (disarming the timer); later calls are no-ops. -/
def settle {V : Type} (st : WsSession V) (o : SettleOutcome V) : WsSession V :=
  if st.settled then st
  else { st with settled := true, outcome := some o, timerArmed := false }

/-- A `ws.close(code, reason)` call issued by the handler code. -/
def wsClose {V : Type} (st : WsSession V) (code : Nat) (reason : String) :
    WsSession V :=
  { st with closeCalls := st.closeCalls ++ [(code, reason)] }

/-- The timeout window armed at session start (line 115). -/
def timeoutMs : Nat := 15000

/-- Events that can reach the session: an inbound `message` with raw string
data, an `error` event, a transport `close` event, and the timeout timer
firing. -/
inductive WsEvent where
  | message (data : String)
  | error
  | close (code : Nat) (reason : String) (wasClean : Bool)
  | timerFire
  deriving Repr, DecidableEq

/-- One step of the session: the event listeners of lines 121–148 plus the
timer callback of lines 113–115. `parse` embeds `JSON.parse` of the frame
envelope, `decode` embeds `JSON.parse ∘ atob` of `payload.result.text`;
`none` means the call threw. -/
def wsStep {V : Type} (parse : String → Option XfFrame)
    (decode : String → Option (DecodedResult V))
    (st : WsSession V) : WsEvent → WsSession V
  | .message data =>
    match parse data with
    | none =>
      -- JSON.parse threw: catch block, lines 132–135
      wsClose (settle st (.rejected "解析 AI 引擎响应失败。" "XF_PARSE_ERROR")) 4001 "Parse error"
    | some f =>
      match f.header with
      | none =>
        -- `response.header.code` threw on a missing header: same catch block
        wsClose (settle st (.rejected "解析 AI 引擎响应失败。" "XF_PARSE_ERROR")) 4001 "Parse error"
      | some h =>
        if h.code = 0 ∧ strTruthy f.resultText then
          match f.resultText with
          | some t =>
            match decode t with
            | some d =>
              -- lines 125–127: resolve with `decodedResult.result`, close 1000
              wsClose (settle st (.resolved d.result)) 1000 "Task completed"
            | none =>
              -- `atob`/inner `JSON.parse` threw: catch block
              wsClose (settle st (.rejected "解析 AI 引擎响应失败。" "XF_PARSE_ERROR")) 4001 "Parse error"
          | none => st
        else if h.code ≠ 0 then
          -- lines 128–131
          wsClose
            (settle st (.rejected ("AI 引擎错误: " ++ strOrElse h.message "未知错误") "XF_API_ERROR"))
            4000 "Error received"
        else
          -- code 0 without a result text: neither branch runs
          st
  | .error =>
    -- lines 138–140: settle only, no close call
    settle st (.rejected "与 AI 评分服务连接失败。" "XF_CONNECTION_FAILED")
  | .close code reason wasClean =>
    let st := { st with closeEventSeen := true }
    if code = 1001 ∧ reason = "Timeout" then
      settle st (.rejected "AI 引擎响应超时。" "XF_TIMEOUT")
    else if wasClean = false ∧ code ≠ 1000 then
      settle st
        (.rejected ("与 AI 评分服务的连接意外断开 (Code: " ++ toString code ++ ")。")
          "XF_CONNECTION_CLOSED")
    else
      st
  | .timerFire =>
    -- the setTimeout callback (lines 113–115) runs only while armed
    -- (clearTimeout in `cleanup` prevents a later fire)
    if st.timerArmed then
      wsClose { st with timerArmed := false } 1001 "Timeout"
    else
      st

/-- Run the session from a given state over a list of events. -/
def runFrom {V : Type} (parse : String → Option XfFrame)
    (decode : String → Option (DecodedResult V))
    (st : WsSession V) : List WsEvent → WsSession V
  | [] => st
  | e :: es => runFrom parse decode (wsStep parse decode st e) es

/-- Run the session from its initial state. -/
def runEvents {V : Type} (parse : String → Option XfFrame)
    (decode : String → Option (DecodedResult V)) (evs : List WsEvent) :
    WsSession V :=
  runFrom parse decode (initSession V) evs

/-- The socket is closed once the handler issued a `ws.close` call or the
transport delivered a `close` event. -/
def socketClosed {V : Type} (st : WsSession V) : Bool :=
  !st.closeCalls.isEmpty || st.closeEventSeen

/-- The rejection produced by the `error` event listener (lines 138–140). -/
def connectionFailedOutcome (V : Type) : SettleOutcome V :=
  .rejected "与 AI 评分服务连接失败。" "XF_CONNECTION_FAILED"

/-- A concrete envelope parser: "good" parses to a successful `code:0` frame
carrying result text, "bad" to a vendor-error frame, anything else fails to
parse (models `JSON.parse` throwing). -/
def parseStub : String → Option XfFrame := fun s =>
  if s = "good" then
    some { header := some { code := 0, message := none }, resultText := some "enc" }
  else if s = "bad" then
    some { header := some { code := 10101, message := some "server busy" }, resultText := none }
  else none

/-- A concrete base64-JSON decoder: "enc" decodes to a result carrying 42. -/
def decodeStub : String → Option (DecodedResult Nat) := fun s =>
  if s = "enc" then some { result := some 42 } else none

/-! ## Base64 utilities (`toBase64`, `btoa`, lines 21–32)

The source's `toBase64` turns an `ArrayBuffer` into a binary string and
applies the environment's `btoa`; both are modelled by one concrete base64
encoder over byte lists. -/

/-- The base64 alphabet. -/
def base64Alphabet : String :=
  "ABCDEFGHIJKLMNOPQRSTUVWXYZabcdefghijklmnopqrstuvwxyz0123456789+/"

/-- The base64 digit for a 6-bit value. -/
def b64Digit (n : Nat) : Char := base64Alphabet.toList.getD n '?'

/-- Base64-encode a byte list, three bytes to four digits, `=`-padded. -/
def b64Chunks : List Nat → List Char
  | [] => []
  | [a] => [b64Digit (a / 4 % 64), b64Digit (a % 4 * 16), '=', '=']
  | [a, b] =>
    [b64Digit (a / 4 % 64), b64Digit (a % 4 * 16 + b / 16 % 16),
     b64Digit (b % 16 * 4), '=']
  | a :: b :: c :: rest =>
    [b64Digit (a / 4 % 64), b64Digit (a % 4 * 16 + b / 16 % 16),
     b64Digit (b % 16 * 4 + c / 64 % 4), b64Digit (c % 64)] ++ b64Chunks rest

/-- `toBase64` (lines 21–28) applied to a byte buffer. -/
def toBase64 (bytes : List Nat) : String := (b64Chunks bytes).asString

/-- The environment's `btoa`: base64 of a binary string (each char one
byte). -/
def btoa (s : String) : String := toBase64 (s.data.map Char.toNat)

/-! ## Request signer (`getXunfeiAuthParams`, lines 45–76)

`crypto.subtle` digests are abstract byte-level primitives passed as
parameters (`sha256` for `crypto.subtle.digest('SHA-256', ·)`, `hmacSha256`
for `crypto.subtle.sign('HMAC', key, ·)` under the imported secret); the
wall-clock `new Date().toUTCString()` is the `date` parameter. Environment
variables are strings; an absent variable is modelled as `""`, which is
falsy exactly like `undefined` everywhere the source tests truthiness. -/

/-- The environment record holding the vendor credentials. -/
structure Env where
  XUNFEI_APP_ID : String
  XUNFEI_API_KEY : String
  XUNFEI_API_SECRET : String
  deriving Repr, DecidableEq

/-- The `method` parameter, typed `'GET' | 'POST'` in the source. -/
inductive HttpMethod where
  | GET
  | POST
  deriving Repr, DecidableEq

/-- The request-line method token. -/
def HttpMethod.str : HttpMethod → String
  | .GET => "GET"
  | .POST => "POST"

/-- The base canonical signing string of line 53:
`host: <host>\ndate: <date>\n<METHOD> <path> HTTP/1.1`. -/
def xfBaseSigningString (host date : String) (method : HttpMethod)
    (path : String) : String :=
  "host: " ++ host ++ "\ndate: " ++ date ++ "\n" ++ method.str ++ " " ++ path
    ++ " HTTP/1.1"

/-- The signer's result. `date`, `authorization` and `digestHeader` are the
returned object of line 75; `signatureOrigin` and `headers` expose the
source's local variables of the same names (the spec's
`SignedRequestContext.canonicalString` and signed-header list) for
analysis. -/
structure XfAuthParams where
  date : String
  authorization : String
  digestHeader : Option String
  signatureOrigin : String
  headers : String
  deriving Repr, DecidableEq

/-- `getXunfeiAuthParams` (lines 45–76). The digest branch runs exactly when
`method === 'POST' && body` is truthy. -/
def getXunfeiAuthParams (sha256 : String → List Nat)
    (hmacSha256 : String → String → List Nat) (env : Env)
    (host path : String) (method : HttpMethod) (body : Option String)
    (date : String) : XfAuthParams :=
  let base := xfBaseSigningString host date method path
  -- if (method === 'POST' && body) — undefined and "" are falsy
  let digestInfo : Option String :=
    match method, body with
    | HttpMethod.POST, some b =>
      if b.isEmpty then none else some ("SHA-256=" ++ toBase64 (sha256 b))
    | _, _ => none
  let signatureOrigin :=
    match digestInfo with
    | some dh => base ++ "\ndigest: " ++ dh
    | none => base
  let headers :=
    match digestInfo with
    | some _ => "host date request-line" ++ " digest"
    | none => "host date request-line"
  let signature := toBase64 (hmacSha256 env.XUNFEI_API_SECRET signatureOrigin)
  let authorizationOrigin :=
    "api_key=\"" ++ env.XUNFEI_API_KEY ++ "\", algorithm=\"hmac-sha-256\", headers=\""
      ++ headers ++ "\", signature=\"" ++ signature ++ "\""
  let authorization := btoa authorizationOrigin
  { date := date, authorization := authorization, digestHeader := digestInfo
    signatureOrigin := signatureOrigin, headers := headers }

/-- The authorization value as the spec describes it: a header value
embedding the API key identifier, the algorithm name, the ordered signed
header names, and the (already base64-encoded) signature, base64-encoded as
a whole. -/
def specAuthorizationValue (apiKey headersList signature : String) : String :=
  btoa ("api_key=\"" ++ apiKey ++ "\", algorithm=\"hmac-sha-256\", headers=\""
    ++ headersList ++ "\", signature=\"" ++ signature ++ "\"")

/-- A stand-in SHA-256 byte digest used for concrete instances. -/
def sha256Stub : String → List Nat := fun _ => [1, 2, 3]

/-- A stand-in HMAC-SHA256 used for concrete instances. -/
def hmacStub : String → String → List Nat := fun _ _ => [4, 5, 6]

/-- A concrete environment with all credentials present. -/
def envStub : Env :=
  { XUNFEI_APP_ID := "app", XUNFEI_API_KEY := "key", XUNFEI_API_SECRET := "secret" }

/-! ## Access-token cache (`getAccessToken` in the Baidu-proxy client
service)

The module-level `cachedToken` slot is passed and returned explicitly; the
`fetch('/api/token')` round trip is the `fetchResult` parameter; the third
component of the result counts the network fetches the call performed. -/

/-- The cached token record `{access_token, expires_at}` (ms timestamp). -/
structure BaiduToken where
  access_token : String
  expires_at : Int
  deriving Repr, DecidableEq

/-- What `fetch('/api/token')` + `response.json()` yields: `response.ok`,
and the body's `access_token` and `expires_in` (seconds). -/
structure TokenFetchResult where
  ok : Bool
  access_token : String
  expires_in : Int
  deriving Repr, DecidableEq

/-- The fetch-and-store path of `getAccessToken`: one network call; a
non-ok response throws; otherwise the new token is cached with
`expires_at = now + (expires_in - 60) * 1000`. -/
def getAccessTokenFetch (fetchResult : TokenFetchResult) (now : Int) :
    Except String (String × Option BaiduToken × Nat) :=
  if fetchResult.ok then
    let newTok : BaiduToken :=
      { access_token := fetchResult.access_token
        expires_at := now + (fetchResult.expires_in - 60) * 1000 }
    .ok (newTok.access_token, some newTok, 1)
  else
    .error "获取 Access Token 失败 (代理服务出错)。"

/-- `getAccessToken`: return the cached token while
`cachedToken.expires_at > now`, otherwise fetch and replace the cache. -/
def getAccessToken (fetchResult : TokenFetchResult) (now : Int)
    (cachedToken : Option BaiduToken) :
    Except String (String × Option BaiduToken × Nat) :=
  match cachedToken with
  | some tok =>
    if tok.expires_at > now then .ok (tok.access_token, some tok, 0)
    else getAccessTokenFetch fetchResult now
  | none => getAccessTokenFetch fetchResult now

/-- A concrete fetch result for witnesses. -/
def tokenFetchStub : TokenFetchResult :=
  { ok := true, access_token := "fresh", expires_in := 3600 }

/-- A concrete cached token for witnesses. -/
def cachedTokStub : BaiduToken := { access_token := "cached", expires_at := 2000 }

/-! ## Request router (`onRequest`, lines 225–273)

The two route handlers perform the vendor network traffic; their outcomes
(a response, or a thrown error object caught by the catch block) are
parameters, and the second component of `onRequest`'s result counts how
many handler invocations — hence vendor network attempts — occurred. -/

/-- A request as `onRequest` sees it: the method and the URL's pathname. -/
structure ProxyRequest where
  method : String
  pathname : String
  deriving Repr, DecidableEq

/-- A response body: `null`, a plain-text body, or the JSON error object
`{error, code}` serialized by the catch block, or a handler's own JSON
payload kept abstract. -/
inductive RespBody where
  | nullBody
  | text (s : String)
  | jsonError (error : String) (code : String)
  | handlerPayload (s : String)
  deriving Repr, DecidableEq

/-- Whether a body is the catch block's JSON error object. -/
def RespBody.isJsonError : RespBody → Bool
  | .jsonError _ _ => true
  | _ => false

/-- A response: status, body, headers. -/
structure ProxyResponse where
  status : Nat
  body : RespBody
  headers : List (String × String)
  deriving Repr, DecidableEq

/-- A thrown JS error as the catch block reads it: `error.message` and an
optional `error.code` (absent on plain `Error`s). -/
structure ThrownError where
  message : String
  code : Option String
  deriving Repr, DecidableEq

/-- The catch block (lines 264–272): 500 with
`{error: "服务错误: " + message, code}`, defaulting code to `UNKNOWN`. -/
def errorResponse (e : ThrownError) : ProxyResponse :=
  { status := 500
    body := .jsonError ("服务错误: " ++ strOrElse (some e.message) "An unknown error occurred.")
      (strOrElse e.code "UNKNOWN")
    headers := [("Content-Type", "application/json")] }

/-- The CORS preflight headers of lines 232–237. -/
def corsHeaders : List (String × String) :=
  [("Access-Control-Allow-Origin", "*"),
   ("Access-Control-Allow-Methods", "POST, OPTIONS"),
   ("Access-Control-Allow-Headers", "Content-Type"),
   ("Access-Control-Max-Age", "86400")]

/-- `onRequest` (lines 225–273). -/
def onRequest (handleEvaluationResult handleTtsResult : Except ThrownError ProxyResponse)
    (env : Env) (request : ProxyRequest) : ProxyResponse × Nat :=
  if request.method = "OPTIONS" then
    ({ status := 204, body := .nullBody, headers := corsHeaders }, 0)
  else if request.method ≠ "POST" then
    ({ status := 405, body := .text "Method Not Allowed", headers := [("Allow", "POST")] }, 0)
  else
    -- try block; `!X` is JS truthiness on the destructured env strings
    if !strTruthy (some env.XUNFEI_APP_ID) || !strTruthy (some env.XUNFEI_API_KEY)
        || !strTruthy (some env.XUNFEI_API_SECRET) then
      (errorResponse { message := "Server configuration error.", code := none }, 0)
    else if request.pathname = "/api/evaluation" then
      match handleEvaluationResult with
      | .ok r => (r, 1)
      | .error e => (errorResponse e, 1)
    else if request.pathname = "/api/tts" then
      match handleTtsResult with
      | .ok r => (r, 1)
      | .error e => (errorResponse e, 1)
    else
      ({ status := 404, body := .text "Not Found", headers := [] }, 0)

/-- A stand-in successful handler outcome. -/
def handlerStub : Except ThrownError ProxyResponse :=
  .ok { status := 200, body := .handlerPayload "result", headers := [("Content-Type", "application/json")] }

/-- An environment with the app id missing (absent variables are falsy). -/
def envMissingStub : Env :=
  { XUNFEI_APP_ID := "", XUNFEI_API_KEY := "key", XUNFEI_API_SECRET := "secret" }

/-! ### Session lemmas -/

variable {V : Type} (parse : String → Option XfFrame)
variable (decode : String → Option (DecodedResult V))

theorem settle_of_not_settled (st : WsSession V) (o : SettleOutcome V)
    (h : st.settled = false) :
    settle st o = { st with settled := true, outcome := some o, timerArmed := false } := by
  simp [settle, h]

/-- A settled session stays settled with the same outcome after any event:
the `settled` guard makes every later `settle` a no-op. -/
theorem wsStep_settled {st : WsSession V} (e : WsEvent)
    (h : st.settled = true) :
    (wsStep parse decode st e).settled = true ∧
      (wsStep parse decode st e).outcome = st.outcome := by
  cases e <;> simp only [wsStep] <;> (repeat' split) <;>
    simp_all [wsClose, settle]

/-- Running a settled session further never changes `settled` or the outcome. -/
theorem runFrom_settled {st : WsSession V} (evs : List WsEvent)
    (h : st.settled = true) :
    (runFrom parse decode st evs).settled = true ∧
      (runFrom parse decode st evs).outcome = st.outcome := by
  induction evs generalizing st with
  | nil => exact ⟨h, rfl⟩
  | cons e es ih =>
    have hstep := wsStep_settled parse decode e h
    have := ih hstep.1
    exact ⟨this.1, this.2.trans hstep.2⟩

/-- Appending event lists composes the runs. -/
theorem runFrom_append (st : WsSession V) (as bs : List WsEvent) :
    runFrom parse decode st (as ++ bs) =
      runFrom parse decode (runFrom parse decode st as) bs := by
  induction as generalizing st with
  | nil => rfl
  | cons a as ih => simp [runFrom, ih]

/-- Every step preserves any invariant that its cases preserve. -/
theorem runFrom_inv (Inv : WsSession V → Prop)
    (hstep : ∀ st e, Inv st → Inv (wsStep parse decode st e)) :
    ∀ (evs : List WsEvent) (st : WsSession V), Inv st →
      Inv (runFrom parse decode st evs) := by
  intro evs
  induction evs with
  | nil => intro st h; exact h
  | cons e es ih => intro st h; exact ih _ (hstep st e h)

/-- Settling always disarms the timer, and nothing rearms it. -/
theorem wsStep_timer_inv {st : WsSession V} (e : WsEvent)
    (h : st.settled = true → st.timerArmed = false) :
    (wsStep parse decode st e).settled = true →
      (wsStep parse decode st e).timerArmed = false := by
  cases hs : st.settled with
  | true =>
    cases e <;> simp only [wsStep] <;> (repeat' split) <;>
      simp_all [wsClose, settle]
  | false =>
    cases e <;> simp only [wsStep] <;> (repeat' split) <;>
      simp_all [wsClose, settle]

/-- The timer-disarm invariant holds in every reachable session state. -/
theorem runEvents_timer_inv (evs : List WsEvent) :
    (runEvents parse decode evs).settled = true →
      (runEvents parse decode evs).timerArmed = false := by
  have := runFrom_inv parse decode
    (fun st => st.settled = true → st.timerArmed = false)
    (fun st e h => wsStep_timer_inv parse decode e h) evs (initSession V)
  exact this (by simp [initSession])

/-- Every settlement either happens in a handler branch that closes the
socket, or is the `error`-listener rejection (which issues no close). -/
theorem wsStep_socket_inv {st : WsSession V} (e : WsEvent)
    (h : st.settled = true →
      socketClosed st = true ∨ st.outcome = some (connectionFailedOutcome V)) :
    (wsStep parse decode st e).settled = true →
      socketClosed (wsStep parse decode st e) = true ∨
        (wsStep parse decode st e).outcome = some (connectionFailedOutcome V) := by
  cases hs : st.settled with
  | true =>
    rcases h hs with hc | ho
    · intro _
      refine Or.inl ?_
      cases e <;> simp only [wsStep] <;> (repeat' split) <;>
        simp_all [wsClose, settle, socketClosed, String.isEmpty_iff]
    · intro _
      have hstep := wsStep_settled parse decode e hs
      exact Or.inr (hstep.2.trans ho)
  | false =>
    cases e <;> simp only [wsStep] <;> (repeat' split) <;>
      simp_all [wsClose, settle, socketClosed, connectionFailedOutcome,
        String.isEmpty_iff]

/-- In every reachable state, a settled session has a closed socket unless
it was settled by the `error` event listener. -/
theorem runEvents_socket_inv (evs : List WsEvent) :
    (runEvents parse decode evs).settled = true →
      socketClosed (runEvents parse decode evs) = true ∨
        (runEvents parse decode evs).outcome = some (connectionFailedOutcome V) := by
  have := runFrom_inv parse decode
    (fun st => st.settled = true →
      socketClosed st = true ∨ st.outcome = some (connectionFailedOutcome V))
    (fun st e h => wsStep_socket_inv parse decode e h) evs (initSession V)
  exact this (by simp [initSession])

/-- Splitting a run at one event. -/
theorem runEvents_append_cons (pre post : List WsEvent) (e : WsEvent) :
    runEvents parse decode (pre ++ e :: post) =
      runFrom parse decode
        (wsStep parse decode (runEvents parse decode pre) e) post := by
  simp [runEvents, runFrom_append, runFrom]

/-! ### Claim theorems about the evaluation session -/

/-- C1: the first inbound frame whose parsed `header.code` is `0` and which
carries a truthy `payload.result.text` settles the session by resolving with
the `result` field of the base64-decoded, re-parsed text, and the settlement
is final: the outcome is unchanged by any later events. -/
theorem first_code0_frame_resolves_once
    {V : Type} (parse : String → Option XfFrame)
    (decode : String → Option (DecodedResult V))
    (pre post : List WsEvent) (data : String) (f : XfFrame) (hd : XfHeader)
    (t : String) (d : DecodedResult V)
    (hpre : (runEvents parse decode pre).settled = false)
    (hp : parse data = some f) (hh : f.header = some hd) (hc : hd.code = 0)
    (ht : f.resultText = some t) (hne : t ≠ "") (hdec : decode t = some d) :
    (runEvents parse decode (pre ++ WsEvent.message data :: post)).settled = true ∧
      (runEvents parse decode (pre ++ WsEvent.message data :: post)).outcome =
        some (SettleOutcome.resolved d.result) := by
  have hstep : wsStep parse decode (runEvents parse decode pre) (WsEvent.message data) =
      wsClose (settle (runEvents parse decode pre) (SettleOutcome.resolved d.result))
        1000 "Task completed" := by
    simp [wsStep, hp, hh, hc, ht, hdec, strTruthy, String.isEmpty_iff, hne]
  have hset := settle_of_not_settled
    (runEvents parse decode pre) (SettleOutcome.resolved d.result) hpre
  have h1 : (wsStep parse decode (runEvents parse decode pre)
      (WsEvent.message data)).settled = true := by
    rw [hstep, hset]; rfl
  have h2 : (wsStep parse decode (runEvents parse decode pre)
      (WsEvent.message data)).outcome = some (SettleOutcome.resolved d.result) := by
    rw [hstep, hset]; rfl
  have hfin := runFrom_settled parse decode post h1
  rw [runEvents_append_cons]
  exact ⟨hfin.1, hfin.2.trans h2⟩

/-- Witness for C1: a fresh session, one good frame, then further events;
the outcome is the decoded result and stays so. -/
theorem first_code0_frame_resolves_once_witness :
    (runEvents parseStub decodeStub ([] : List WsEvent)).settled = false ∧
      ((runEvents parseStub decodeStub
          ([] ++ WsEvent.message "good" :: [WsEvent.error, WsEvent.message "bad"])).settled = true ∧
        (runEvents parseStub decodeStub
          ([] ++ WsEvent.message "good" :: [WsEvent.error, WsEvent.message "bad"])).outcome =
          some (SettleOutcome.resolved (some 42))) :=
  ⟨by decide,
    first_code0_frame_resolves_once parseStub decodeStub []
      [WsEvent.error, WsEvent.message "bad"] "good"
      { header := some { code := 0, message := none }, resultText := some "enc" }
      { code := 0, message := none } "enc" { result := some 42 }
      (by decide) (by decide) rfl rfl rfl (by decide) (by decide)⟩

/-- C5: with the 15-second window expired and nothing settled, the timer
callback closes the socket with the distinguishable pair `(1001, "Timeout")`;
the resulting close event settles the session with the timeout error kind,
the socket ends closed, the timer ends disarmed — and in any reachable
settled state the timer is disarmed, so it can never fire after settlement. -/
theorem timeout_settles_closes_disarms
    {V : Type} (parse : String → Option XfFrame)
    (decode : String → Option (DecodedResult V))
    (pre : List WsEvent) (wasClean : Bool)
    (hpre : (runEvents parse decode pre).settled = false)
    (harm : (runEvents parse decode pre).timerArmed = true) :
    timeoutMs = 15000 ∧
    (wsStep parse decode (runEvents parse decode pre) WsEvent.timerFire).closeCalls =
      (runEvents parse decode pre).closeCalls ++ [(1001, "Timeout")] ∧
    socketClosed (wsStep parse decode (runEvents parse decode pre) WsEvent.timerFire) = true ∧
    (runEvents parse decode
        (pre ++ [WsEvent.timerFire, WsEvent.close 1001 "Timeout" wasClean])).settled = true ∧
    (runEvents parse decode
        (pre ++ [WsEvent.timerFire, WsEvent.close 1001 "Timeout" wasClean])).outcome =
      some (SettleOutcome.rejected "AI 引擎响应超时。" "XF_TIMEOUT") ∧
    (runEvents parse decode
        (pre ++ [WsEvent.timerFire, WsEvent.close 1001 "Timeout" wasClean])).timerArmed = false ∧
    socketClosed (runEvents parse decode
        (pre ++ [WsEvent.timerFire, WsEvent.close 1001 "Timeout" wasClean])) = true ∧
    (∀ evs : List WsEvent, (runEvents parse decode evs).settled = true →
      (runEvents parse decode evs).timerArmed = false) := by
  have hfire : wsStep parse decode (runEvents parse decode pre) WsEvent.timerFire =
      wsClose { runEvents parse decode pre with timerArmed := false } 1001 "Timeout" := by
    simp [wsStep, harm]
  have hfire_unsettled :
      (wsStep parse decode (runEvents parse decode pre) WsEvent.timerFire).settled = false := by
    rw [hfire]; exact hpre
  have hrun : runEvents parse decode
      (pre ++ [WsEvent.timerFire, WsEvent.close 1001 "Timeout" wasClean]) =
      wsStep parse decode
        (wsStep parse decode (runEvents parse decode pre) WsEvent.timerFire)
        (WsEvent.close 1001 "Timeout" wasClean) := by
    rw [runEvents_append_cons]; rfl
  have hclose : wsStep parse decode
      (wsStep parse decode (runEvents parse decode pre) WsEvent.timerFire)
      (WsEvent.close 1001 "Timeout" wasClean) =
      settle { wsStep parse decode (runEvents parse decode pre) WsEvent.timerFire with
          closeEventSeen := true }
        (SettleOutcome.rejected "AI 引擎响应超时。" "XF_TIMEOUT") := by
    simp [wsStep]
  have hset := settle_of_not_settled
    { wsStep parse decode (runEvents parse decode pre) WsEvent.timerFire with
      closeEventSeen := true }
    (SettleOutcome.rejected "AI 引擎响应超时。" "XF_TIMEOUT") hfire_unsettled
  refine ⟨rfl, by rw [hfire]; rfl, by rw [hfire]; simp [socketClosed, wsClose], ?_, ?_, ?_, ?_,
    fun evs => runEvents_timer_inv parse decode evs⟩
  · rw [hrun, hclose, hset]
  · rw [hrun, hclose, hset]
  · rw [hrun, hclose, hset]
  · rw [hrun, hclose, hset]; simp [socketClosed]

/-- Witness for C5: an untouched fresh session that times out. -/
theorem timeout_settles_closes_disarms_witness :
    ((runEvents parseStub decodeStub ([] : List WsEvent)).settled = false ∧
      (runEvents parseStub decodeStub ([] : List WsEvent)).timerArmed = true) ∧
    (runEvents parseStub decodeStub
        ([] ++ [WsEvent.timerFire, WsEvent.close 1001 "Timeout" true])).outcome =
      some (SettleOutcome.rejected "AI 引擎响应超时。" "XF_TIMEOUT") :=
  ⟨⟨by decide, by decide⟩,
    (timeout_settles_closes_disarms parseStub decodeStub [] true
      (by decide) (by decide)).2.2.2.2.1⟩

/-- C6 as stated is false: counterexample. A bare transport `error` event
settles the session (rejecting with the connection-failure kind), yet no
`ws.close` call is made and no close event was seen, so the socket is left
open at settlement. -/
theorem error_event_settles_without_closing :
    (runEvents parseStub decodeStub [WsEvent.error]).settled = true ∧
      socketClosed (runEvents parseStub decodeStub [WsEvent.error]) = false := by
  decide

/-- C6 (amended): every settlement path closes the socket except settlement
by the `error` event listener, which rejects with the connection-failure
outcome without issuing a close. -/
theorem settlement_closes_socket_unless_error_event
    {V : Type} (parse : String → Option XfFrame)
    (decode : String → Option (DecodedResult V)) (evs : List WsEvent)
    (h : (runEvents parse decode evs).settled = true) :
    socketClosed (runEvents parse decode evs) = true ∨
      (runEvents parse decode evs).outcome = some (connectionFailedOutcome V) :=
  runEvents_socket_inv parse decode evs h

/-- Witness for the amended C6: an unparseable frame settles the session and
the socket is closed. -/
theorem settlement_closes_socket_unless_error_event_witness :
    (runEvents parseStub decodeStub [WsEvent.message "nonsense"]).settled = true ∧
      (socketClosed (runEvents parseStub decodeStub [WsEvent.message "nonsense"]) = true ∨
        (runEvents parseStub decodeStub [WsEvent.message "nonsense"]).outcome =
          some (connectionFailedOutcome Nat)) :=
  ⟨by decide,
    settlement_closes_socket_unless_error_event parseStub decodeStub
      [WsEvent.message "nonsense"] (by decide)⟩

/-- C7: a parsed frame with nonzero `header.code` arriving while the session
is unsettled settles it by rejecting with the vendor-rejected kind
(`XF_API_ERROR`) carrying the vendor's message text, and that outcome is
final. -/
theorem nonzero_code_settles_vendor_rejected
    {V : Type} (parse : String → Option XfFrame)
    (decode : String → Option (DecodedResult V))
    (pre post : List WsEvent) (data : String) (f : XfFrame) (hd : XfHeader)
    (m : String)
    (hpre : (runEvents parse decode pre).settled = false)
    (hp : parse data = some f) (hh : f.header = some hd) (hc : hd.code ≠ 0)
    (hm : hd.message = some m) (hmne : m ≠ "") :
    (runEvents parse decode (pre ++ WsEvent.message data :: post)).settled = true ∧
      (runEvents parse decode (pre ++ WsEvent.message data :: post)).outcome =
        some (SettleOutcome.rejected ("AI 引擎错误: " ++ m) "XF_API_ERROR") := by
  have hstep : wsStep parse decode (runEvents parse decode pre) (WsEvent.message data) =
      wsClose (settle (runEvents parse decode pre)
          (SettleOutcome.rejected ("AI 引擎错误: " ++ m) "XF_API_ERROR"))
        4000 "Error received" := by
    simp [wsStep, hp, hh, hc, hm, strOrElse, String.isEmpty_iff, hmne]
  have hset := settle_of_not_settled
    (runEvents parse decode pre)
    (SettleOutcome.rejected ("AI 引擎错误: " ++ m) "XF_API_ERROR") hpre
  have h1 : (wsStep parse decode (runEvents parse decode pre)
      (WsEvent.message data)).settled = true := by
    rw [hstep, hset]; rfl
  have h2 : (wsStep parse decode (runEvents parse decode pre)
      (WsEvent.message data)).outcome =
      some (SettleOutcome.rejected ("AI 引擎错误: " ++ m) "XF_API_ERROR") := by
    rw [hstep, hset]; rfl
  have hfin := runFrom_settled parse decode post h1
  rw [runEvents_append_cons]
  exact ⟨hfin.1, hfin.2.trans h2⟩

/-- Witness for C7: a vendor-error frame on a fresh session. -/
theorem nonzero_code_settles_vendor_rejected_witness :
    (runEvents parseStub decodeStub ([] : List WsEvent)).settled = false ∧
      (runEvents parseStub decodeStub ([] ++ WsEvent.message "bad" :: [])).outcome =
        some (SettleOutcome.rejected ("AI 引擎错误: " ++ "server busy") "XF_API_ERROR") :=
  ⟨by decide,
    (nonzero_code_settles_vendor_rejected parseStub decodeStub [] [] "bad"
      { header := some { code := 10101, message := some "server busy" }, resultText := none }
      { code := 10101, message := some "server busy" } "server busy"
      (by decide) (by decide) rfl (by decide) rfl (by decide)).2⟩

/-! ### Claim theorems about the request signer -/

/-- C2 as stated is false: counterexample. A `GET` call with the non-empty
body `"x"` yields no digest header and a signing string with exactly the
host, date, and request-line components, although the body is non-empty —
the digest branch requires `method === 'POST'` as well. -/
theorem digest_despite_nonempty_body_counterexample :
    strTruthy (some "x") = true ∧
      (getXunfeiAuthParams sha256Stub hmacStub envStub "h" "/p" HttpMethod.GET
        (some "x") "D").digestHeader = none ∧
      (getXunfeiAuthParams sha256Stub hmacStub envStub "h" "/p" HttpMethod.GET
        (some "x") "D").signatureOrigin = "host: h\ndate: D\nGET /p HTTP/1.1" := by
  constructor
  · decide
  · constructor <;> rfl

/-- C2 (amended): for every call to the signer, the digest header is
produced, the `digest` line is appended to the canonical signing string, and
`digest` joins the signed-header list, exactly when the method is `POST` and
the body is present and non-empty; otherwise the signing string is exactly
the host, date, and request-line components and no digest header is
returned. -/
theorem digest_iff_post_and_nonempty_body
    (sha256 : String → List Nat) (hmacSha256 : String → String → List Nat)
    (env : Env) (host path : String) (method : HttpMethod)
    (body : Option String) (date : String) :
    (getXunfeiAuthParams sha256 hmacSha256 env host path method body date).digestHeader =
      (if method = HttpMethod.POST ∧ strTruthy body = true then
        some ("SHA-256=" ++ toBase64 (sha256 (body.getD ""))) else none) ∧
    (getXunfeiAuthParams sha256 hmacSha256 env host path method body date).signatureOrigin =
      (if method = HttpMethod.POST ∧ strTruthy body = true then
        xfBaseSigningString host date method path ++ "\ndigest: "
          ++ ("SHA-256=" ++ toBase64 (sha256 (body.getD "")))
       else xfBaseSigningString host date method path) ∧
    (getXunfeiAuthParams sha256 hmacSha256 env host path method body date).headers =
      (if method = HttpMethod.POST ∧ strTruthy body = true then
        "host date request-line digest" else "host date request-line") := by
  cases method <;> rcases body with _ | b <;>
    simp [getXunfeiAuthParams, strTruthy]
  rcases hb : b.isEmpty <;> simp_all

/-- C3: the returned authorization equals the base64 encoding of the full
header value `api_key="…", algorithm="hmac-sha-256", headers="…",
signature="…"`, where the signature is itself the base64 encoding of the
HMAC-SHA256 of the canonical signing string under the API secret — base64
applied twice. -/
theorem authorization_is_double_base64
    (sha256 : String → List Nat) (hmacSha256 : String → String → List Nat)
    (env : Env) (host path : String) (method : HttpMethod)
    (body : Option String) (date : String) :
    (getXunfeiAuthParams sha256 hmacSha256 env host path method body date).authorization =
      specAuthorizationValue env.XUNFEI_API_KEY
        (getXunfeiAuthParams sha256 hmacSha256 env host path method body date).headers
        (toBase64 (hmacSha256 env.XUNFEI_API_SECRET
          (getXunfeiAuthParams sha256 hmacSha256 env host path method body date).signatureOrigin)) := by
  rfl

/-! ### Claim theorems about the token cache -/

/-- C4: a cached token with `expires_at` strictly above the current time is
returned with zero fetches and an unchanged cache; otherwise (stale or
absent cache) exactly one fetch happens and the stored token's `expires_at`
is `now + (expires_in - 60) * 1000`, so a token is reused only while the
current time is below its expiry discounted by the 60-second margin. -/
theorem getAccessToken_cache_window
    (fetchResult : TokenFetchResult) (now : Int) (cachedToken : Option BaiduToken) :
    (∀ tok, cachedToken = some tok → tok.expires_at > now →
      getAccessToken fetchResult now cachedToken = .ok (tok.access_token, some tok, 0)) ∧
    (∀ tok, cachedToken = some tok → ¬(tok.expires_at > now) → fetchResult.ok = true →
      getAccessToken fetchResult now cachedToken =
        .ok (fetchResult.access_token,
          some { access_token := fetchResult.access_token
                 expires_at := now + (fetchResult.expires_in - 60) * 1000 }, 1)) ∧
    (cachedToken = none → fetchResult.ok = true →
      getAccessToken fetchResult now cachedToken =
        .ok (fetchResult.access_token,
          some { access_token := fetchResult.access_token
                 expires_at := now + (fetchResult.expires_in - 60) * 1000 }, 1)) := by
  refine ⟨?_, ?_, ?_⟩
  · intro tok h hexp; subst h; simp [getAccessToken, hexp]
  · intro tok h hexp hok; subst h; simp [getAccessToken, hexp, getAccessTokenFetch, hok]
  · intro h hok; subst h; simp [getAccessToken, getAccessTokenFetch, hok]

/-- Witness for C4: a valid cached token is reused with zero fetches; a
stale one triggers exactly one fetch with the discounted expiry. -/
theorem getAccessToken_cache_window_witness :
    (cachedTokStub.expires_at > 1000 ∧
      getAccessToken tokenFetchStub 1000 (some cachedTokStub) =
        .ok ("cached", some cachedTokStub, 0)) ∧
    (¬(cachedTokStub.expires_at > 3000) ∧
      getAccessToken tokenFetchStub 3000 (some cachedTokStub) =
        .ok ("fresh", some { access_token := "fresh", expires_at := 3000 + (3600 - 60) * 1000 }, 1)) :=
  ⟨⟨by decide,
      (getAccessToken_cache_window tokenFetchStub 1000 (some cachedTokStub)).1
        cachedTokStub rfl (by decide)⟩,
    ⟨by decide,
      (getAccessToken_cache_window tokenFetchStub 3000 (some cachedTokStub)).2.1
        cachedTokStub rfl (by decide) rfl⟩⟩

/-! ### Claim theorems about the request router -/

/-- C8 as stated is false: counterexample. With the app id missing, a POST
to `/api/evaluation` does get status 500, a JSON error body, and zero
vendor calls — but the body's code field is `"UNKNOWN"`, not
`"ConfigError"`: the thrown `Error('Server configuration error.')` carries
no `code`, so the catch block's `error.code || 'UNKNOWN'` fallback runs. -/
theorem config_error_code_counterexample :
    (onRequest handlerStub handlerStub envMissingStub
        { method := "POST", pathname := "/api/evaluation" }).1.status = 500 ∧
    (onRequest handlerStub handlerStub envMissingStub
        { method := "POST", pathname := "/api/evaluation" }).1.body =
      RespBody.jsonError "服务错误: Server configuration error." "UNKNOWN" ∧
    (onRequest handlerStub handlerStub envMissingStub
        { method := "POST", pathname := "/api/evaluation" }).2 = 0 ∧
    "UNKNOWN" ≠ "ConfigError" := by
  refine ⟨rfl, rfl, rfl, by decide⟩

/-- C8 (amended): with any vendor credential missing, every POST request is
answered 500 with the JSON body
`{error: "服务错误: Server configuration error.", code: "UNKNOWN"}` before
any vendor call is attempted. -/
theorem missing_credentials_yield_500_unknown
    (handleEvaluationResult handleTtsResult : Except ThrownError ProxyResponse)
    (env : Env) (request : ProxyRequest)
    (hmiss : env.XUNFEI_APP_ID.isEmpty = true ∨ env.XUNFEI_API_KEY.isEmpty = true ∨
      env.XUNFEI_API_SECRET.isEmpty = true)
    (hpost : request.method = "POST") :
    onRequest handleEvaluationResult handleTtsResult env request =
      ({ status := 500
         body := RespBody.jsonError "服务错误: Server configuration error." "UNKNOWN"
         headers := [("Content-Type", "application/json")] }, 0) := by
  have hcheck : (!strTruthy (some env.XUNFEI_APP_ID) || !strTruthy (some env.XUNFEI_API_KEY)
      || !strTruthy (some env.XUNFEI_API_SECRET)) = true := by
    rcases hmiss with h | h | h <;> simp [strTruthy, h]
  simp only [onRequest, hpost, hcheck, errorResponse, strOrElse]
  norm_num
  decide

/-- Witness for the amended C8: the app id is missing, so a POST to
`/api/tts` is refused with the 500 JSON error and no vendor call. -/
theorem missing_credentials_yield_500_unknown_witness :
    envMissingStub.XUNFEI_APP_ID.isEmpty = true ∧
      onRequest handlerStub handlerStub envMissingStub
        { method := "POST", pathname := "/api/tts" } =
      ({ status := 500
         body := RespBody.jsonError "服务错误: Server configuration error." "UNKNOWN"
         headers := [("Content-Type", "application/json")] }, 0) :=
  ⟨by decide,
    missing_credentials_yield_500_unknown handlerStub handlerStub envMissingStub
      { method := "POST", pathname := "/api/tts" } (Or.inl (by decide)) rfl⟩

/-- C9 as stated is false: counterexample. With all credentials set, a POST
to the unmatched path `/api/nope` gets status 404, but the body is the
plain text `Not Found`, not the JSON object `{error: "Not Found"}`. -/
theorem not_found_body_counterexample :
    (onRequest handlerStub handlerStub envStub
        { method := "POST", pathname := "/api/nope" }).1.status = 404 ∧
    (onRequest handlerStub handlerStub envStub
        { method := "POST", pathname := "/api/nope" }).1.body =
      RespBody.text "Not Found" ∧
    RespBody.isJsonError
      (onRequest handlerStub handlerStub envStub
        { method := "POST", pathname := "/api/nope" }).1.body = false := by
  refine ⟨rfl, rfl, rfl⟩

/-- C9 (amended): with credentials set, every POST whose path matches no API
route is answered 404 with the plain-text body `Not Found` (not JSON), and
no vendor call is attempted. -/
theorem unmatched_path_404_plain_text
    (handleEvaluationResult handleTtsResult : Except ThrownError ProxyResponse)
    (env : Env) (request : ProxyRequest)
    (happ : env.XUNFEI_APP_ID.isEmpty = false)
    (hkey : env.XUNFEI_API_KEY.isEmpty = false)
    (hsec : env.XUNFEI_API_SECRET.isEmpty = false)
    (hpost : request.method = "POST")
    (h1 : request.pathname ≠ "/api/evaluation")
    (h2 : request.pathname ≠ "/api/tts") :
    onRequest handleEvaluationResult handleTtsResult env request =
      ({ status := 404, body := RespBody.text "Not Found", headers := [] }, 0) := by
  simp [onRequest, hpost, strTruthy, happ, hkey, hsec, h1, h2]

/-- Witness for the amended C9: POST `/api/nope` with full credentials. -/
theorem unmatched_path_404_plain_text_witness :
    (envStub.XUNFEI_APP_ID.isEmpty = false ∧ "/api/nope" ≠ "/api/evaluation") ∧
      onRequest handlerStub handlerStub envStub
        { method := "POST", pathname := "/api/nope" } =
      ({ status := 404, body := RespBody.text "Not Found", headers := [] }, 0) :=
  ⟨⟨by decide, by decide⟩,
    unmatched_path_404_plain_text handlerStub handlerStub envStub
      { method := "POST", pathname := "/api/nope" }
      (by decide) (by decide) (by decide) rfl (by decide) (by decide)⟩

/-- C10: every OPTIONS request is answered 204 with the
`Access-Control-Allow-*` headers and zero vendor calls, regardless of the
environment: the preflight branch precedes the credential check, so missing
secrets never produce a config error for OPTIONS. -/
theorem options_preflight_bypasses_config_check
    (handleEvaluationResult handleTtsResult : Except ThrownError ProxyResponse)
    (env : Env) (request : ProxyRequest)
    (hopt : request.method = "OPTIONS") :
    onRequest handleEvaluationResult handleTtsResult env request =
      ({ status := 204, body := RespBody.nullBody, headers := corsHeaders }, 0) := by
  simp [onRequest, hopt]

/-- Witness for C10: an OPTIONS preflight succeeds even with the app id
missing from the environment. -/
theorem options_preflight_bypasses_config_check_witness :
    ({ method := "OPTIONS", pathname := "/api/evaluation" } : ProxyRequest).method = "OPTIONS" ∧
      onRequest handlerStub handlerStub envMissingStub
        { method := "OPTIONS", pathname := "/api/evaluation" } =
      ({ status := 204, body := RespBody.nullBody, headers := corsHeaders }, 0) :=
  ⟨rfl,
    options_preflight_bypasses_config_check handlerStub handlerStub envMissingStub
      { method := "OPTIONS", pathname := "/api/evaluation" } rfl⟩

end PronunciationCoach
